import Mathlib

/-!
Shallow embedding of the order/payment core of the readify e-commerce
backend (`src/services/orderService.js`, the payment service in
`src/unnamed/part_003`, and the Sequelize models in `src/unnamed/part_015`,
`src/unnamed/part_016`).

Database tables become lists of records inside a `DB` state; every service
method becomes a state-passing function.  `new Date()` timestamps are
modelled by an explicit `Nat` argument supplied by the caller, row ids by
the `nextId` counter of the state, and externally generated strings
(Stripe payment-intent ids, order numbers) by explicit parameters.
Monetary amounts are modelled as `Nat` (a fixed-point reading of the
DECIMAL(10,2) columns); the algebraic claims under study do not depend on
the numeric representation.
-/

deriving instance DecidableEq for Except

namespace Readify

/-- Order statuses from the `Order` model
(`pending / processing / shipped / delivered / cancelled`); `refunded`
is additionally written by the payment service's refund paths. -/
inductive OrderStatus where
  | pending
  | processing
  | shipped
  | delivered
  | cancelled
  | refunded
deriving DecidableEq, Repr

/-- Payment methods from the payment service
(`credit_card / paypal / cash_on_delivery`). -/
inductive PayMethod where
  | credit_card
  | paypal
  | cash_on_delivery
deriving DecidableEq, Repr

/-- Payment statuses used by the payment service
(`pending / completed / failed / refunded`). -/
inductive PayStatus where
  | pending
  | completed
  | failed
  | refunded
deriving DecidableEq, Repr

/-- `status === 'cancelled'` as a boolean, mirroring the
`status: { [Op.not]: 'cancelled' }` filters of the payment service. -/
def OrderStatus.isCancelledB : OrderStatus → Bool
  | .cancelled => true
  | _ => false

/-- `status IN ('pending','processing')`, the cancellability filter of
`OrderService.cancelOrder` and `updateShippingAddress`. -/
def OrderStatus.isCancellableB : OrderStatus → Bool
  | .pending => true
  | .processing => true
  | _ => false

/-- `status === 'completed'` as a boolean, mirroring the
`status: 'completed'` filters of the payment service. -/
def PayStatus.isCompletedB : PayStatus → Bool
  | .completed => true
  | _ => false

/-- `status IN ('pending','completed')`, the duplicate filter of
`PaymentService.createCashOnDelivery`. -/
def PayStatus.isActiveB : PayStatus → Bool
  | .pending => true
  | .completed => true
  | _ => false

/-- A `Book` row: the fields `createOrder` reads through its join
(`id, title, price, stock`). -/
structure Book where
  id : Nat
  title : String
  price : Nat
  stock : Nat
deriving DecidableEq, Repr

/-- A `CartItem` row (`userId, bookId, quantity`); the model carries a
unique index on `(userId, bookId)`. -/
structure CartItem where
  userId : Nat
  bookId : Nat
  quantity : Nat
deriving DecidableEq, Repr

/-- An `Order` row with the columns the embedded operations touch. -/
structure Order where
  id : Nat
  userId : Nat
  orderNumber : String
  totalAmount : Nat
  status : OrderStatus
  shippingAddress : String
  notes : Option String
  shippedAt : Option Nat
  deliveredAt : Option Nat
  cancelledAt : Option Nat
deriving DecidableEq, Repr

/-- An `OrderItem` row (`orderId, bookId, quantity, price`), the price
being the snapshot taken at order creation. -/
structure OrderItem where
  orderId : Nat
  bookId : Nat
  quantity : Nat
  price : Nat
deriving DecidableEq, Repr

/-- A `Payment` row; `transactionId` is the external gateway reference
(absent for cash on delivery), `cardLastFour`/`receiptUrl` the metadata
recorded by webhook reconciliation. -/
structure Payment where
  id : Nat
  orderId : Nat
  userId : Nat
  paymentMethod : PayMethod
  amount : Nat
  transactionId : Option String
  status : PayStatus
  paymentDate : Option Nat
  cardLastFour : Option String
  receiptUrl : Option String
deriving DecidableEq, Repr

/-- The persistent state: one list per table plus a fresh-id counter. -/
structure DB where
  books : List Book
  cartItems : List CartItem
  orders : List Order
  orderItems : List OrderItem
  payments : List Payment
  nextId : Nat
deriving DecidableEq, Repr

/-- Failures of the order service (`createOrder` throws). -/
inductive OrderErr where
  | emptyCart
  | bookMissing
  | insufficientStock (title : String) (available : Nat)
deriving DecidableEq, Repr

/-- Failures of the payment service: `orderNotFound` is
`'Order not found or cancelled'`, `duplicateCompletedPayment` is
`'Order already has a completed payment'`, `duplicatePayment` is
`'Order already has a payment'`. -/
inductive PayErr where
  | orderNotFound
  | duplicateCompletedPayment
  | duplicatePayment
  | invalidSignature
deriving DecidableEq, Repr

/-- Current stock of a book id (0 when the id is absent). -/
def stockOf (books : List Book) (bid : Nat) : Nat :=
  ((books.find? (fun b => b.id == bid)).map (fun b => b.stock)).getD 0

/-- `Book.decrement('stock', { by: qty, where: { id: bid } })`. -/
def decStock (books : List Book) (bid qty : Nat) : List Book :=
  books.map (fun b => if b.id == bid then { b with stock := b.stock - qty } else b)

/-- `Book.increment('stock', { by: qty, where: { id: bid } })`. -/
def incStock (books : List Book) (bid qty : Nat) : List Book :=
  books.map (fun b => if b.id == bid then { b with stock := b.stock + qty } else b)

/-- One record of `orderItemsData` built by the validation loop of
`createOrder`. -/
structure OrderItemData where
  bookId : Nat
  quantity : Nat
  price : Nat
  itemTotal : Nat
deriving DecidableEq, Repr

/-- The `for (const cartItem of cartItems)` validation loop of
`OrderService.createOrder`: joins each cart line to its book, aborts at
the first line whose joined book has `stock < quantity`, and otherwise
accumulates `totalAmount` and `orderItemsData`.  The whole loop runs
before any write, exactly as in the source. -/
def priceLines (books : List Book) : List CartItem → Except OrderErr (Nat × List OrderItemData)
  | [] => .ok (0, [])
  | line :: rest =>
    match books.find? (fun b => b.id == line.bookId) with
    | none => .error .bookMissing
    | some book =>
      if book.stock < line.quantity then
        .error (.insufficientStock book.title book.stock)
      else
        match priceLines books rest with
        | .error e => .error e
        | .ok (t, ds) =>
          .ok (book.price * line.quantity + t,
               { bookId := line.bookId, quantity := line.quantity,
                 price := book.price,
                 itemTotal := book.price * line.quantity } :: ds)

/-- `OrderService.createOrder(userId, { shippingAddress, notes })`.
Loads the user's cart lines, fails on an empty cart, validates stock and
prices every line, then (all checks having passed) creates the order row
(status `pending`, frozen `totalAmount`), creates one order item per
line, decrements each book's stock, and deletes the user's cart lines.
Returns the new order's id alongside the new state. -/
def createOrder (db : DB) (userId : Nat) (orderNumber shippingAddress : String)
    (notes : Option String) : Except OrderErr (DB × Nat) :=
  let cart := db.cartItems.filter (fun c => c.userId == userId)
  if cart.isEmpty then .error .emptyCart
  else
    match priceLines db.books cart with
    | .error e => .error e
    | .ok (totalAmount, itemsData) =>
      let oid := db.nextId
      let order : Order :=
        { id := oid, userId := userId, orderNumber := orderNumber,
          totalAmount := totalAmount, status := .pending,
          shippingAddress := shippingAddress, notes := notes,
          shippedAt := none, deliveredAt := none, cancelledAt := none }
      let newItems := itemsData.map (fun d =>
        ({ orderId := oid, bookId := d.bookId, quantity := d.quantity,
           price := d.price } : OrderItem))
      .ok ({ db with
              orders := db.orders ++ [order],
              orderItems := db.orderItems ++ newItems,
              books := cart.foldl (fun bs c => decStock bs c.bookId c.quantity) db.books,
              cartItems := db.cartItems.filter (fun c => !(c.userId == userId)),
              nextId := db.nextId + 1 }, oid)

/-- `OrderService.cancelOrder(orderId, userId)`: looks the order up under
the filter `id, userId, status IN ('pending','processing')`; when absent,
returns `null` without touching anything; when found, increments stock
for every order item and sets `status: 'cancelled', cancelledAt: t`. -/
def cancelOrder (db : DB) (orderId userId t : Nat) : Option DB :=
  match db.orders.find? (fun o =>
      o.id == orderId && o.userId == userId && o.status.isCancellableB) with
  | none => none
  | some _ =>
    let items := db.orderItems.filter (fun i => i.orderId == orderId)
    some { db with
            books := items.foldl (fun bs i => incStock bs i.bookId i.quantity) db.books,
            orders := db.orders.map (fun o =>
              if o.id == orderId then
                { o with status := .cancelled, cancelledAt := some t }
              else o) }

/-- `OrderService.updateOrderStatus(orderId, newStatus)` (admin): finds
the order by primary key, applies `status := newStatus` unconditionally,
stamps `shippedAt`/`deliveredAt`/`cancelledAt` on first entry into those
statuses, and restores every order item's stock when newly cancelling.
No *from*-state validation is performed. -/
def updateOrderStatus (db : DB) (orderId : Nat) (newStatus : OrderStatus)
    (t : Nat) : Option DB :=
  match db.orders.find? (fun o => o.id == orderId) with
  | none => none
  | some order =>
    if newStatus = .shipped ∧ order.status ≠ .shipped then
      some { db with orders := db.orders.map (fun o =>
        if o.id == orderId then { o with status := newStatus, shippedAt := some t }
        else o) }
    else if newStatus = .delivered ∧ order.status ≠ .delivered then
      some { db with orders := db.orders.map (fun o =>
        if o.id == orderId then { o with status := newStatus, deliveredAt := some t }
        else o) }
    else if newStatus = .cancelled ∧ order.status ≠ .cancelled then
      let items := db.orderItems.filter (fun i => i.orderId == orderId)
      some { db with
              books := items.foldl (fun bs i => incStock bs i.bookId i.quantity) db.books,
              orders := db.orders.map (fun o =>
                if o.id == orderId then
                  { o with status := newStatus, cancelledAt := some t }
                else o) }
    else
      some { db with orders := db.orders.map (fun o =>
        if o.id == orderId then { o with status := newStatus } else o) }

/-- The price-updating slice of the admin book update
(`bookController.updateBook` / `book.update(req.body)`): rewrites the
catalog price of one book and touches no other table. -/
def updateBookPrice (db : DB) (bookId newPrice : Nat) : DB :=
  { db with books := db.books.map (fun b =>
      if b.id == bookId then { b with price := newPrice } else b) }

/-- The order lookup shared by the three payment-initiation entry points:
`Order.findOne({ where: { id, userId, status: { [Op.not]: 'cancelled' } } })`. -/
def findUserOrder (db : DB) (orderId userId : Nat) : Option Order :=
  db.orders.find? (fun o =>
    o.id == orderId && o.userId == userId && !o.status.isCancelledB)

/-- `PaymentService.createPaymentIntent(orderId, userId)` (gateway card
payment).  `intentId` stands for the id of the Stripe payment intent
created for `order.totalAmount`.  Rejects a cancelled/foreign/absent
order and an order that already has a `completed` payment; otherwise
persists a `pending` Payment carrying the gateway reference.  The order
status is not touched. -/
def createPaymentIntent (db : DB) (orderId userId : Nat) (intentId : String) :
    Except PayErr (DB × Nat) :=
  match findUserOrder db orderId userId with
  | none => .error .orderNotFound
  | some order =>
    match db.payments.find? (fun p => p.orderId == orderId && p.status.isCompletedB) with
    | some _ => .error .duplicateCompletedPayment
    | none =>
      let payment : Payment :=
        { id := db.nextId, orderId := orderId, userId := userId,
          paymentMethod := .credit_card, amount := order.totalAmount,
          transactionId := some intentId, status := .pending,
          paymentDate := none, cardLastFour := none, receiptUrl := none }
      .ok ({ db with payments := db.payments ++ [payment],
                     nextId := db.nextId + 1 }, db.nextId)

/-- `PaymentService.handlePaymentIntentSucceeded(paymentIntent)`: finds
the local Payment by `transactionId`; when absent, does nothing (the
event is still acknowledged by the caller); when found, unconditionally
sets `status: 'completed'`, `paymentDate: t` and the card/receipt
metadata, then sets the order named by the event's `metadata.orderId` to
`processing`.  `t` models `new Date()` at processing time. -/
def handlePaymentIntentSucceeded (db : DB) (intentId : String) (metaOrderId t : Nat)
    (cardLastFour receiptUrl : Option String) : DB :=
  match db.payments.find? (fun p => p.transactionId == some intentId) with
  | none => db
  | some payment =>
    { db with
        payments := db.payments.map (fun p =>
          if p.id == payment.id then
            { p with status := .completed, paymentDate := some t,
                     cardLastFour := cardLastFour, receiptUrl := receiptUrl }
          else p),
        orders := db.orders.map (fun o =>
          if o.id == metaOrderId then { o with status := .processing } else o) }

/-- `PaymentService.handlePaymentIntentFailed(paymentIntent)`: sets the
matching Payment (when any) to `failed`; no order change. -/
def handlePaymentIntentFailed (db : DB) (intentId : String) : DB :=
  match db.payments.find? (fun p => p.transactionId == some intentId) with
  | none => db
  | some payment =>
    { db with payments := db.payments.map (fun p =>
        if p.id == payment.id then { p with status := .failed } else p) }

/-- `PaymentService.handleChargeRefunded(charge)`: finds the `completed`
Payment matching `charge.payment_intent`, sets it to `refunded`, and when
the charge is fully refunded sets its order to `refunded`. -/
def handleChargeRefunded (db : DB) (intentId : String) (fullyRefunded : Bool) : DB :=
  match db.payments.find? (fun p =>
      p.transactionId == some intentId && p.status.isCompletedB) with
  | none => db
  | some payment =>
    let db1 := { db with payments := db.payments.map (fun p =>
      if p.id == payment.id then { p with status := .refunded } else p) }
    if fullyRefunded then
      { db1 with orders := db1.orders.map (fun o =>
          if o.id == payment.orderId then { o with status := .refunded } else o) }
    else db1

/-- A parsed Stripe event envelope, as dispatched by
`PaymentService.handleStripeWebhook`. -/
inductive StripeEvent where
  | paymentIntentSucceeded (intentId : String) (metaOrderId : Nat)
      (cardLastFour receiptUrl : Option String)
  | paymentIntentFailed (intentId : String)
  | chargeRefunded (intentId : String) (fullyRefunded : Bool)
  | unrecognized (eventType : String)
deriving DecidableEq, Repr

/-- `PaymentService.handleStripeWebhook(req)` as called by the
controller's `handleStripeWebhook`: signature verification is modelled by
the `sigValid` flag (`stripe.webhooks.constructEvent` throws on a bad
signature, which the controller maps to a 400); a verified event is
dispatched by type, unrecognized types are logged and acknowledged. An
`ok` result is the controller's `res.json({ received: true })`
acknowledgment. -/
def handleStripeWebhook (db : DB) (sigValid : Bool) (event : StripeEvent)
    (t : Nat) : Except PayErr DB :=
  if !sigValid then .error .invalidSignature
  else
    match event with
    | .paymentIntentSucceeded i m c r => .ok (handlePaymentIntentSucceeded db i m t c r)
    | .paymentIntentFailed i => .ok (handlePaymentIntentFailed db i)
    | .chargeRefunded i full => .ok (handleChargeRefunded db i full)
    | .unrecognized _ => .ok db

/-- `PaymentService.createCashOnDelivery(orderId, userId)`: rejects a
cancelled/foreign/absent order, rejects when any Payment for the order is
already `pending` or `completed`, otherwise creates a `pending` Payment
with no external reference and `amount = order.totalAmount`, and sets the
order's status to `processing`. -/
def createCashOnDelivery (db : DB) (orderId userId : Nat) :
    Except PayErr (DB × Nat) :=
  match findUserOrder db orderId userId with
  | none => .error .orderNotFound
  | some order =>
    match db.payments.find? (fun p => p.orderId == orderId && p.status.isActiveB) with
    | some _ => .error .duplicatePayment
    | none =>
      let payment : Payment :=
        { id := db.nextId, orderId := orderId, userId := userId,
          paymentMethod := .cash_on_delivery, amount := order.totalAmount,
          transactionId := none, status := .pending,
          paymentDate := none, cardLastFour := none, receiptUrl := none }
      .ok ({ db with
              payments := db.payments ++ [payment],
              orders := db.orders.map (fun o =>
                if o.id == orderId then { o with status := .processing } else o),
              nextId := db.nextId + 1 }, db.nextId)

/-- `PaymentService.createPayPalPayment(orderId, userId, transactionId)`
(the externally pre-confirmed wallet path): rejects a cancelled/foreign/
absent order and an order that already has a `completed` payment;
otherwise creates a Payment directly in `completed` with the supplied
reference and `paymentDate: t`, and sets the order to `processing`. -/
def createPayPalPayment (db : DB) (orderId userId : Nat) (transactionId : String)
    (t : Nat) : Except PayErr (DB × Nat) :=
  match findUserOrder db orderId userId with
  | none => .error .orderNotFound
  | some order =>
    match db.payments.find? (fun p => p.orderId == orderId && p.status.isCompletedB) with
    | some _ => .error .duplicateCompletedPayment
    | none =>
      let payment : Payment :=
        { id := db.nextId, orderId := orderId, userId := userId,
          paymentMethod := .paypal, amount := order.totalAmount,
          transactionId := some transactionId, status := .completed,
          paymentDate := some t, cardLastFour := none, receiptUrl := none }
      .ok ({ db with
              payments := db.payments ++ [payment],
              orders := db.orders.map (fun o =>
                if o.id == orderId then { o with status := .processing } else o),
              nextId := db.nextId + 1 }, db.nextId)

/-- `PaymentService.updatePaymentStatus(paymentId, newStatus)` (admin):
finds the payment by primary key; completing a not-yet-completed payment
stamps `paymentDate` and sets the payment's order to `processing`;
refunding sets the order to `refunded`; any other value is written
as-is.  No check against other payments of the same order is made. -/
def updatePaymentStatus (db : DB) (paymentId : Nat) (newStatus : PayStatus)
    (t : Nat) : Option DB :=
  match db.payments.find? (fun p => p.id == paymentId) with
  | none => none
  | some payment =>
    if newStatus = .completed ∧ payment.status ≠ .completed then
      some { db with
              payments := db.payments.map (fun p =>
                if p.id == paymentId then
                  { p with status := .completed, paymentDate := some t }
                else p),
              orders := db.orders.map (fun o =>
                if o.id == payment.orderId then { o with status := .processing } else o) }
    else if newStatus = .refunded then
      some { db with
              payments := db.payments.map (fun p =>
                if p.id == paymentId then { p with status := .refunded } else p),
              orders := db.orders.map (fun o =>
                if o.id == payment.orderId then { o with status := .refunded } else o) }
    else
      some { db with payments := db.payments.map (fun p =>
        if p.id == paymentId then { p with status := newStatus } else p) }

/-- The status of the order with a given id, as read back from the state. -/
def orderStatusOf (db : DB) (orderId : Nat) : Option OrderStatus :=
  (db.orders.find? (fun o => o.id == orderId)).map (fun o => o.status)

/-- The payment row with a given id, as read back from the state. -/
def paymentById (db : DB) (paymentId : Nat) : Option Payment :=
  db.payments.find? (fun p => p.id == paymentId)

/-- How many Payments of an order hold `completed` status. -/
def completedPaymentCount (db : DB) (orderId : Nat) : Nat :=
  (db.payments.filter (fun p => p.orderId == orderId && p.status.isCompletedB)).length

/-- The order items belonging to an order. -/
def itemsOfOrder (db : DB) (orderId : Nat) : List OrderItem :=
  db.orderItems.filter (fun i => i.orderId == orderId)

/-- The frozen total of an order, as read back from the state. -/
def orderTotalOf (db : DB) (orderId : Nat) : Option Nat :=
  (db.orders.find? (fun o => o.id == orderId)).map (fun o => o.totalAmount)

/-! ### Concrete fixtures

Small states used to instantiate the theorems below: a pending order with
no payments, the same order after a card intent and a wallet payment, the
two-book cart of the specification's concrete scenarios, and variants
with a shipped / delivered order. -/

/-- A pending order of user 7 with total 50. -/
def order1 : Order :=
  { id := 1, userId := 7, orderNumber := "ORD-1", totalAmount := 50,
    status := .pending, shippingAddress := "addr", notes := none,
    shippedAt := none, deliveredAt := none, cancelledAt := none }

/-- A shipped order of user 7. -/
def orderShipped : Order := { order1 with id := 2, status := .shipped }

/-- A delivered order of user 7. -/
def orderDelivered : Order := { order1 with id := 3, status := .delivered }

/-- State holding just the pending order. -/
def dbPay : DB :=
  { books := [], cartItems := [], orders := [order1], orderItems := [],
    payments := [], nextId := 10 }

/-- State holding just the shipped order. -/
def dbShip : DB := { dbPay with orders := [orderShipped] }

/-- State holding just the delivered order. -/
def dbDeliv : DB := { dbPay with orders := [orderDelivered] }

/-- The pending card payment created by `createPaymentIntent` on `dbPay`. -/
def payIntent1 : Payment :=
  { id := 10, orderId := 1, userId := 7, paymentMethod := .credit_card,
    amount := 50, transactionId := some "pi_1", status := .pending,
    paymentDate := none, cardLastFour := none, receiptUrl := none }

/-- The completed wallet payment created by `createPayPalPayment` next. -/
def payPaypal1 : Payment :=
  { id := 11, orderId := 1, userId := 7, paymentMethod := .paypal,
    amount := 50, transactionId := some "pp_1", status := .completed,
    paymentDate := some 5, cardLastFour := none, receiptUrl := none }

/-- `dbPay` after the card intent. -/
def dbPay1 : DB := { dbPay with payments := [payIntent1], nextId := 11 }

/-- `dbPay1` after the wallet payment (order now `processing`). -/
def dbPay2 : DB :=
  { dbPay1 with payments := [payIntent1, payPaypal1],
                orders := [{ order1 with status := .processing }], nextId := 12 }

/-- A pending card payment with gateway reference `pi_9`, used for the
replay scenario. -/
def payPend9 : Payment :=
  { id := 3, orderId := 1, userId := 7, paymentMethod := .credit_card,
    amount := 50, transactionId := some "pi_9", status := .pending,
    paymentDate := none, cardLastFour := none, receiptUrl := none }

/-- State with the pending order and the pending payment `payPend9`. -/
def dbReplay : DB := { dbPay with payments := [payPend9], nextId := 4 }

/-- Catalog item A of the specification scenario: price 10, stock 5. -/
def bookA : Book := { id := 1, title := "A", price := 10, stock := 5 }

/-- Catalog item B of the specification scenario: price 25, stock 1. -/
def bookB : Book := { id := 2, title := "B", price := 25, stock := 1 }

/-- The scenario cart: 2 × A and 1 × B for user 7. -/
def dbCart : DB :=
  { books := [bookA, bookB],
    cartItems := [{ userId := 7, bookId := 1, quantity := 2 },
                  { userId := 7, bookId := 2, quantity := 1 }],
    orders := [], orderItems := [], payments := [], nextId := 100 }

/-- The same cart but item B is out of stock. -/
def dbCartB0 : DB := { dbCart with books := [bookA, { bookB with stock := 0 }] }

/-- The state produced by `createOrder` on `dbCart`: total 45, stock of A
down to 3, stock of B down to 0, cart emptied. -/
def dbCartAfter : DB :=
  { books := [{ bookA with stock := 3 }, { bookB with stock := 0 }],
    cartItems := [],
    orders := [{ id := 100, userId := 7, orderNumber := "ORD-100",
                 totalAmount := 45, status := .pending,
                 shippingAddress := "addr", notes := none,
                 shippedAt := none, deliveredAt := none, cancelledAt := none }],
    orderItems := [{ orderId := 100, bookId := 1, quantity := 2, price := 10 },
                   { orderId := 100, bookId := 2, quantity := 1, price := 25 }],
    payments := [], nextId := 101 }

/-- Per-book total quantity named in a list of `(bookId, quantity)`
pairs; the amount by which the stock folds move one book's stock. -/
def sumQty (L : List (Nat × Nat)) (x : Nat) : Nat :=
  (L.map (fun p => if x = p.1 then p.2 else 0)).sum

/-! ### General lemmas about the table encodings -/

/-- `find?` commutes with a row update that does not change the field
the predicate reads. -/
theorem find?_map_invar {α : Type} (f : α → α) (p : α → Bool)
    (h : ∀ x, p (f x) = p x) (l : List α) :
    (l.map f).find? p = (l.find? p).map f := by
  rw [List.find?_map]
  have hp : p ∘ f = p := funext h
  rw [hp]

/-- When the first table fragment holds no match, `find?` over the
concatenation reads the second fragment. -/
theorem find?_append_none {α : Type} {p : α → Bool} {l₁ : List α} (l₂ : List α)
    (h : l₁.find? p = none) : (l₁ ++ l₂).find? p = l₂.find? p := by
  rw [List.find?_append, h, Option.none_or]

/-- A stock write never changes which row `find?` sees, only its stock
field: the searched row survives any `decStock`. -/
theorem find?_decStock (bs : List Book) (bid qty x : Nat) :
    (decStock bs bid qty).find? (fun b => b.id == x)
      = (bs.find? (fun b => b.id == x)).map
          (fun b => if b.id == bid then { b with stock := b.stock - qty } else b) := by
  unfold decStock
  exact find?_map_invar _ _ (fun b => by by_cases h : (b.id == bid) = true <;> simp [h]) bs

/-- The searched row survives any `incStock`. -/
theorem find?_incStock (bs : List Book) (bid qty x : Nat) :
    (incStock bs bid qty).find? (fun b => b.id == x)
      = (bs.find? (fun b => b.id == x)).map
          (fun b => if b.id == bid then { b with stock := b.stock + qty } else b) := by
  unfold incStock
  exact find?_map_invar _ _ (fun b => by by_cases h : (b.id == bid) = true <;> simp [h]) bs

/-- Reading one present book's stock after a single decrement. -/
theorem stockOf_decStock (bs : List Book) (bid qty x : Nat) :
    stockOf (decStock bs bid qty) x =
      if x = bid then stockOf bs x - qty else stockOf bs x := by
  unfold stockOf
  rw [find?_decStock]
  cases hf : bs.find? (fun b => b.id == x) with
  | none => by_cases hx : x = bid <;> simp [hx]
  | some b =>
    have hb : b.id = x := by simpa using List.find?_some hf
    by_cases hx : x = bid
    · simp [hx, hb]
    · have : ¬ b.id = bid := by rw [hb]; exact hx
      simp [this, hx]

/-- Reading one present book's stock after a single increment; absent
book ids read 0 before and after. -/
theorem stockOf_incStock (bs : List Book) (bid qty x : Nat)
    (hp : (bs.find? (fun b => b.id == x)).isSome = true) :
    stockOf (incStock bs bid qty) x =
      if x = bid then stockOf bs x + qty else stockOf bs x := by
  unfold stockOf
  rw [find?_incStock]
  cases hf : bs.find? (fun b => b.id == x) with
  | none => rw [hf] at hp; cases hp
  | some b =>
    have hb : b.id = x := by simpa using List.find?_some hf
    by_cases hx : x = bid
    · simp [hx, hb]
    · have : ¬ b.id = bid := by rw [hb]; exact hx
      simp [this, hx]

/-- Decrement folds keep the searched row present. -/
theorem isSome_find?_foldDec (L : List (Nat × Nat)) (bs : List Book) (x : Nat) :
    ((L.foldl (fun acc p => decStock acc p.1 p.2) bs).find? (fun b => b.id == x)).isSome
      = ((bs.find? (fun b => b.id == x))).isSome := by
  induction L generalizing bs with
  | nil => rfl
  | cons h t ih =>
    simp only [List.foldl_cons]
    rw [ih, find?_decStock]
    cases bs.find? (fun b => b.id == x) <;> rfl

/-- Increment folds keep the searched row present. -/
theorem isSome_find?_foldInc (L : List (Nat × Nat)) (bs : List Book) (x : Nat) :
    ((L.foldl (fun acc p => incStock acc p.1 p.2) bs).find? (fun b => b.id == x)).isSome
      = ((bs.find? (fun b => b.id == x))).isSome := by
  induction L generalizing bs with
  | nil => rfl
  | cons h t ih =>
    simp only [List.foldl_cons]
    rw [ih, find?_incStock]
    cases bs.find? (fun b => b.id == x) <;> rfl

/-- Folding `decStock` over a list of `(bookId, qty)` pairs subtracts the
per-book total. -/
theorem stockOf_foldDec (L : List (Nat × Nat)) (bs : List Book) (x : Nat) :
    stockOf (L.foldl (fun acc p => decStock acc p.1 p.2) bs) x
      = stockOf bs x - sumQty L x := by
  induction L generalizing bs with
  | nil => simp [sumQty]
  | cons h t ih =>
    simp only [List.foldl_cons]
    rw [ih, stockOf_decStock]
    unfold sumQty
    simp only [List.map_cons, List.sum_cons]
    by_cases hx : x = h.1
    · simp only [if_pos hx, Nat.sub_sub, sumQty]
    · simp only [if_neg hx, sumQty, Nat.zero_add]

/-- Folding `incStock` over a list of `(bookId, qty)` pairs adds the
per-book total, provided the searched row is present. -/
theorem stockOf_foldInc (L : List (Nat × Nat)) (bs : List Book) (x : Nat)
    (hp : (bs.find? (fun b => b.id == x)).isSome = true) :
    stockOf (L.foldl (fun acc p => incStock acc p.1 p.2) bs) x
      = stockOf bs x + sumQty L x := by
  induction L generalizing bs with
  | nil => simp [sumQty]
  | cons h t ih =>
    simp only [List.foldl_cons]
    have hp2 : ((incStock bs h.1 h.2).find? (fun b => b.id == x)).isSome = true := by
      rw [find?_incStock]
      cases hf : bs.find? (fun b => b.id == x) with
      | none => rw [hf] at hp; cases hp
      | some b => rfl
    rw [ih _ hp2, stockOf_incStock _ _ _ _ hp]
    unfold sumQty
    simp only [List.map_cons, List.sum_cons]
    by_cases hx : x = h.1
    · simp only [if_pos hx]
      omega
    · simp only [if_neg hx, Nat.zero_add]

/-- Absent book ids always read stock 0. -/
theorem stockOf_eq_zero_of_absent {bs : List Book} {x : Nat}
    (h : (bs.find? (fun b => b.id == x)).isSome = false) : stockOf bs x = 0 := by
  unfold stockOf
  cases hf : bs.find? (fun b => b.id == x) with
  | none => rfl
  | some b => rw [hf] at h; cases h

/-- Releasing exactly what was reserved restores every book's stock,
provided no book was asked for more than it had. -/
theorem stockOf_roundtrip (L : List (Nat × Nat)) (bs : List Book) (x : Nat)
    (hle : sumQty L x ≤ stockOf bs x) :
    stockOf (L.foldl (fun acc p => incStock acc p.1 p.2)
              (L.foldl (fun acc p => decStock acc p.1 p.2) bs)) x
      = stockOf bs x := by
  cases hp : (bs.find? (fun b => b.id == x)).isSome with
  | true =>
    have hp2 : (((L.foldl (fun acc p => decStock acc p.1 p.2) bs)).find?
        (fun b => b.id == x)).isSome = true := by rw [isSome_find?_foldDec]; exact hp
    rw [stockOf_foldInc _ _ _ hp2, stockOf_foldDec, Nat.sub_add_cancel hle]
  | false =>
    have h0 : stockOf bs x = 0 := stockOf_eq_zero_of_absent hp
    have hp2 : (((L.foldl (fun acc p => decStock acc p.1 p.2) bs)).find?
        (fun b => b.id == x)).isSome = false := by rw [isSome_find?_foldDec]; exact hp
    have hp3 : (((L.foldl (fun acc p => incStock acc p.1 p.2)
        ((L.foldl (fun acc p => decStock acc p.1 p.2) bs)))).find?
        (fun b => b.id == x)).isSome = false := by rw [isSome_find?_foldInc]; exact hp2
    rw [stockOf_eq_zero_of_absent hp3, h0]

/-- A key that appears in no pair contributes no quantity. -/
theorem sumQty_eq_zero {L : List (Nat × Nat)} {x : Nat}
    (h : ∀ p ∈ L, p.1 ≠ x) : sumQty L x = 0 := by
  induction L with
  | nil => simp [sumQty]
  | cons hd t ih =>
    have h1 : hd.1 ≠ x := h hd (List.mem_cons_self hd t)
    have hx : ¬ x = hd.1 := fun hh => h1 hh.symm
    have ht : ∀ p ∈ t, p.1 ≠ x := fun p hp => h p (List.mem_cons_of_mem hd hp)
    unfold sumQty
    simp only [List.map_cons, List.sum_cons, if_neg hx]
    simpa [sumQty] using ih ht

/-- With pairwise-distinct keys, a pair's key recovers exactly its own
quantity. -/
theorem sumQty_of_nodup {L : List (Nat × Nat)} {x q : Nat}
    (hnd : (L.map (fun p => p.1)).Nodup) (hmem : (x, q) ∈ L) :
    sumQty L x = q := by
  induction L with
  | nil => cases hmem
  | cons hd t ih =>
    rw [List.map_cons, List.nodup_cons] at hnd
    rcases List.mem_cons.mp hmem with heq | hmem'
    · have hx : x = hd.1 := by rw [← heq]
      have hq : hd.2 = q := by rw [← heq]
      have hzero : sumQty t x = 0 := by
        refine sumQty_eq_zero fun p hp hpx => ?_
        exact hnd.1 (hx ▸ hpx ▸ List.mem_map_of_mem (fun p => p.1) hp)
      unfold sumQty
      simp only [List.map_cons, List.sum_cons, if_pos hx]
      simpa [sumQty, hq] using hzero
    · have hx : ¬ x = hd.1 := by
        intro hxy
        exact hnd.1 (hxy ▸ List.mem_map_of_mem (fun p => p.1) hmem')
      unfold sumQty
      simp only [List.map_cons, List.sum_cons, if_neg hx]
      simpa [sumQty] using ih hnd.2 hmem'

/-- The accumulated `totalAmount` is the sum of the per-item
`price × quantity` snapshots. -/
theorem priceLines_total (books : List Book) :
    ∀ (cart : List CartItem) (T : Nat) (ds : List OrderItemData),
      priceLines books cart = .ok (T, ds) →
      T = (ds.map (fun d => d.price * d.quantity)).sum := by
  intro cart
  induction cart with
  | nil =>
    intro T ds h
    rw [priceLines] at h
    simp only [Except.ok.injEq, Prod.mk.injEq] at h
    rw [← h.1, ← h.2]
    simp
  | cons line rest ih =>
    intro T ds h
    rw [priceLines] at h
    cases hf : books.find? (fun b => b.id == line.bookId) with
    | none => rw [hf] at h; cases h
    | some book =>
      rw [hf] at h
      dsimp only at h
      by_cases hs : book.stock < line.quantity
      · rw [if_pos hs] at h; cases h
      · rw [if_neg hs] at h
        cases hr : priceLines books rest with
        | error e => rw [hr] at h; cases h
        | ok pr =>
          obtain ⟨T', ds'⟩ := pr
          rw [hr] at h
          dsimp only at h
          simp only [Except.ok.injEq, Prod.mk.injEq] at h
          rw [← h.1, ← h.2]
          simp only [List.map_cons, List.sum_cons]
          rw [ih T' ds' hr]

/-- The item data records carry exactly the cart's `(bookId, quantity)`
pairs, in order. -/
theorem priceLines_pairs (books : List Book) :
    ∀ (cart : List CartItem) (T : Nat) (ds : List OrderItemData),
      priceLines books cart = .ok (T, ds) →
      ds.map (fun d => (d.bookId, d.quantity))
        = cart.map (fun c => (c.bookId, c.quantity)) := by
  intro cart
  induction cart with
  | nil =>
    intro T ds h
    rw [priceLines] at h
    simp only [Except.ok.injEq, Prod.mk.injEq] at h
    rw [← h.2]
    simp
  | cons line rest ih =>
    intro T ds h
    rw [priceLines] at h
    cases hf : books.find? (fun b => b.id == line.bookId) with
    | none => rw [hf] at h; cases h
    | some book =>
      rw [hf] at h
      dsimp only at h
      by_cases hs : book.stock < line.quantity
      · rw [if_pos hs] at h; cases h
      · rw [if_neg hs] at h
        cases hr : priceLines books rest with
        | error e => rw [hr] at h; cases h
        | ok pr =>
          obtain ⟨T', ds'⟩ := pr
          rw [hr] at h
          dsimp only at h
          simp only [Except.ok.injEq, Prod.mk.injEq] at h
          rw [← h.2]
          simp only [List.map_cons]
          rw [ih T' ds' hr]

/-- A successful validation pass certifies that every line's joined book
exists and has enough stock. -/
theorem priceLines_stock_ok (books : List Book) :
    ∀ (cart : List CartItem) (T : Nat) (ds : List OrderItemData),
      priceLines books cart = .ok (T, ds) →
      ∀ c ∈ cart, ∃ b, books.find? (fun b2 => b2.id == c.bookId) = some b ∧
        ¬ b.stock < c.quantity := by
  intro cart
  induction cart with
  | nil => intro T ds _ c hc; cases hc
  | cons line rest ih =>
    intro T ds h c hc
    rw [priceLines] at h
    cases hf : books.find? (fun b => b.id == line.bookId) with
    | none => rw [hf] at h; cases h
    | some book =>
      rw [hf] at h
      dsimp only at h
      by_cases hs : book.stock < line.quantity
      · rw [if_pos hs] at h; cases h
      · rw [if_neg hs] at h
        cases hr : priceLines books rest with
        | error e => rw [hr] at h; cases h
        | ok pr =>
          obtain ⟨T', ds'⟩ := pr
          rcases List.mem_cons.mp hc with hceq | hcmem
          · subst hceq
            exact ⟨book, hf, hs⟩
          · exact ih T' ds' hr c hcmem

/-- When every line's book exists and some line asks for more than its
book's stock, validation reports `insufficientStock` naming a failing
line's book title and available stock. -/
theorem priceLines_insufficient (books : List Book) :
    ∀ (cart : List CartItem),
      (∀ c ∈ cart, (books.find? (fun b => b.id == c.bookId)).isSome = true) →
      (∃ c ∈ cart, ∃ b, books.find? (fun b2 => b2.id == c.bookId) = some b ∧
        b.stock < c.quantity) →
      ∃ c ∈ cart, ∃ b, books.find? (fun b2 => b2.id == c.bookId) = some b ∧
        b.stock < c.quantity ∧
        priceLines books cart = .error (.insufficientStock b.title b.stock) := by
  intro cart
  induction cart with
  | nil =>
    intro _ hfail
    obtain ⟨c, hc, _⟩ := hfail
    cases hc
  | cons line rest ih =>
    intro hbooks hfail
    have hline : (books.find? (fun b => b.id == line.bookId)).isSome = true :=
      hbooks line (List.mem_cons_self line rest)
    obtain ⟨book, hfb⟩ := Option.isSome_iff_exists.mp hline
    by_cases hs : book.stock < line.quantity
    · refine ⟨line, List.mem_cons_self line rest, book, hfb, hs, ?_⟩
      rw [priceLines, hfb]
      dsimp only
      rw [if_pos hs]
    · have hfail' : ∃ c ∈ rest, ∃ b,
          books.find? (fun b2 => b2.id == c.bookId) = some b ∧ b.stock < c.quantity := by
        obtain ⟨c, hc, b, hfb2, hlt⟩ := hfail
        rcases List.mem_cons.mp hc with hceq | hcmem
        · exfalso
          subst hceq
          rw [hfb2] at hfb
          cases hfb
          exact hs hlt
        · exact ⟨c, hcmem, b, hfb2, hlt⟩
      have hbooks' : ∀ c ∈ rest, (books.find? (fun b => b.id == c.bookId)).isSome = true :=
        fun c hc => hbooks c (List.mem_cons_of_mem line hc)
      obtain ⟨c, hc, b, hfb2, hlt, hpl⟩ := ih hbooks' hfail'
      refine ⟨c, List.mem_cons_of_mem line hc, b, hfb2, hlt, ?_⟩
      rw [priceLines, hfb]
      dsimp only
      rw [if_neg hs, hpl]

/-- Inversion of a successful `createOrder`: the new state appends one
order row (status `pending`, frozen total), one order item per cart
line, folds the stock decrements over the cart, and clears the user's
cart lines. -/
theorem createOrder_inv {db : DB} {u : Nat} {onum sa : String} {no : Option String}
    {db1 : DB} {oid : Nat}
    (h : createOrder db u onum sa no = .ok (db1, oid)) :
    oid = db.nextId ∧
    ∃ T ds, priceLines db.books (db.cartItems.filter (fun c => c.userId == u)) = .ok (T, ds) ∧
      db1.orders = db.orders ++
        [{ id := db.nextId, userId := u, orderNumber := onum, totalAmount := T,
           status := .pending, shippingAddress := sa, notes := no,
           shippedAt := none, deliveredAt := none, cancelledAt := none }] ∧
      db1.orderItems = db.orderItems ++ ds.map (fun d =>
        ({ orderId := db.nextId, bookId := d.bookId, quantity := d.quantity,
           price := d.price } : OrderItem)) ∧
      db1.books = (db.cartItems.filter (fun c => c.userId == u)).foldl
        (fun bs c => decStock bs c.bookId c.quantity) db.books ∧
      db1.payments = db.payments ∧
      db1.cartItems = db.cartItems.filter (fun c => !(c.userId == u)) ∧
      db1.nextId = db.nextId + 1 := by
  unfold createOrder at h
  by_cases he : (db.cartItems.filter (fun c => c.userId == u)).isEmpty = true
  · rw [if_pos he] at h; cases h
  · rw [if_neg he] at h
    cases hr : priceLines db.books (db.cartItems.filter (fun c => c.userId == u)) with
    | error e => rw [hr] at h; cases h
    | ok pr =>
      obtain ⟨T, ds⟩ := pr
      rw [hr] at h
      simp only [Except.ok.injEq, Prod.mk.injEq] at h
      obtain ⟨hdb, hoid⟩ := h
      refine ⟨hoid.symm, T, ds, rfl, ?_⟩
      rw [← hdb]
      exact ⟨rfl, rfl, rfl, rfl, rfl, rfl⟩

/-- Reading the status of the targeted order after an update that
rewrites exactly the rows with the searched id. -/
theorem statusRead_after_targeted_update (orders : List Order) (oid : Nat)
    (g : Order → Order) (s : OrderStatus)
    (hgid : ∀ x, (g x).id = x.id) (hgs : ∀ x, (g x).status = s)
    (hex : ∃ y ∈ orders, (y.id == oid) = true) :
    ((orders.map (fun o => if o.id == oid then g o else o)).find?
        (fun o => o.id == oid)).map (fun o => o.status) = some s := by
  rw [find?_map_invar (fun o => if o.id == oid then g o else o) (fun o => o.id == oid)
    (fun x => by by_cases hx : (x.id == oid) = true <;> simp [hx, hgid]) orders]
  have hsome : (orders.find? (fun o => o.id == oid)).isSome = true :=
    List.find?_isSome.mpr hex
  obtain ⟨y, hy⟩ := Option.isSome_iff_exists.mp hsome
  rw [hy]
  simp only [Option.map_some']
  have hyid := List.find?_some hy
  rw [if_pos hyid, hgs y]

/-- A payment-intent-succeeded event whose reference matches no local
payment leaves the state untouched. -/
theorem handlePIS_of_no_match {db : DB} {i : String} (m t : Nat)
    (c r : Option String)
    (h : db.payments.find? (fun p => p.transactionId == some i) = none) :
    handlePaymentIntentSucceeded db i m t c r = db := by
  unfold handlePaymentIntentSucceeded
  rw [h]

/-- C7: `cancelOrder` succeeds exactly when an order with the requested
id exists, belongs to the caller, and is `pending` or `processing`; in
every other case (absent order, foreign order, or status `shipped`,
`delivered` or `cancelled`) it returns `null`, and — the embedding
returning no successor state — performs no mutation: no stock change, no
status change, no timestamp. -/
theorem C7_cancel_guard (db : DB) (orderId userId t : Nat) :
    cancelOrder db orderId userId t = none ↔
      db.orders.find? (fun o =>
        o.id == orderId && o.userId == userId && o.status.isCancellableB) = none := by
  unfold cancelOrder
  cases h : db.orders.find? (fun o =>
      o.id == orderId && o.userId == userId && o.status.isCancellableB) with
  | none => simp
  | some o => simp

/-- C7 witness: cancelling the shipped order 2 returns `null` and leaves
no successor state. -/
theorem C7_cancel_guard_witness : cancelOrder dbShip 2 7 5 = none :=
  (C7_cancel_guard dbShip 2 7 5).mpr (by decide)

/-- C9: a verified "payment succeeded" event whose transaction reference
matches no local Payment is acknowledged (the webhook call returns
success) and returns the state unchanged. -/
theorem C9_unmatched_event_acknowledged (db : DB) (i : String) (m t : Nat)
    (c r : Option String)
    (h : db.payments.find? (fun p => p.transactionId == some i) = none) :
    handleStripeWebhook db true (.paymentIntentSucceeded i m c r) t = .ok db := by
  unfold handleStripeWebhook
  simp only [Bool.not_true]
  rw [if_neg (by simp)]
  rw [handlePIS_of_no_match m t c r h]

/-- C9 witness: an event for reference `pi_x` with no matching payment is
acknowledged on the concrete state `dbPay` without any change. -/
theorem C9_unmatched_event_witness :
    dbPay.payments.find? (fun p => p.transactionId == some "pi_x") = none ∧
    handleStripeWebhook dbPay true (.paymentIntentSucceeded "pi_x" 1 none none) 3
      = .ok dbPay :=
  ⟨by decide, C9_unmatched_event_acknowledged dbPay "pi_x" 1 3 none none (by decide)⟩

/-- C6 counterexample: the admin status update moves the delivered order
3 to `processing` instead of rejecting the transition — no
`InvalidTransition` failure exists anywhere in the code path. -/
theorem C6_delivered_to_processing_accepted :
    (updateOrderStatus dbDeliv 3 .processing 9).map (fun d => orderStatusOf d 3)
      = some (some .processing) := by decide

/-- C6 amended: `updateOrderStatus` validates nothing about the current
state: whenever the order exists, it applies any requested status (only
adding timestamps and stock restoration side effects), so every
transition — including `delivered → processing` — is accepted. -/
theorem C6_admin_applies_any_status {db : DB} {orderId : Nat} {o : Order}
    (h : db.orders.find? (fun o2 => o2.id == orderId) = some o)
    (newStatus : OrderStatus) (t : Nat) :
    (updateOrderStatus db orderId newStatus t).map (fun d => orderStatusOf d orderId)
      = some (some newStatus) := by
  have hex : ∃ y ∈ db.orders, (y.id == orderId) = true :=
    ⟨o, List.mem_of_find?_eq_some h, by simpa using List.find?_some h⟩
  unfold updateOrderStatus
  rw [h]
  dsimp only
  split
  · simp only [Option.map_some']
    unfold orderStatusOf
    exact congrArg some (statusRead_after_targeted_update db.orders orderId
      (fun o2 => { o2 with status := newStatus, shippedAt := some t }) newStatus
      (fun x => rfl) (fun x => rfl) hex)
  · split
    · simp only [Option.map_some']
      unfold orderStatusOf
      exact congrArg some (statusRead_after_targeted_update db.orders orderId
        (fun o2 => { o2 with status := newStatus, deliveredAt := some t }) newStatus
        (fun x => rfl) (fun x => rfl) hex)
    · split
      · simp only [Option.map_some']
        unfold orderStatusOf
        exact congrArg some (statusRead_after_targeted_update db.orders orderId
          (fun o2 => { o2 with status := newStatus, cancelledAt := some t }) newStatus
          (fun x => rfl) (fun x => rfl) hex)
      · simp only [Option.map_some']
        unfold orderStatusOf
        exact congrArg some (statusRead_after_targeted_update db.orders orderId
          (fun o2 => { o2 with status := newStatus }) newStatus
          (fun x => rfl) (fun x => rfl) hex)

/-- C6 witness: the shipped order 2 is happily moved backwards to
`pending` by the admin path. -/
theorem C6_admin_applies_any_status_witness :
    dbShip.orders.find? (fun o2 => o2.id == 2) = some orderShipped ∧
    (updateOrderStatus dbShip 2 .pending 4).map (fun d => orderStatusOf d 2)
      = some (some .pending) :=
  ⟨by decide, @C6_admin_applies_any_status dbShip 2 orderShipped (by decide) .pending 4⟩

/-- C2 counterexample: the handler never checks whether the Payment is
already `completed`, so a second delivery of the same succeeded event at
a later time is *not* a no-op: it re-stamps `paymentDate` (here from 1 to
2), so the state after two deliveries differs from the state after one. -/
theorem C2_replay_restamps_paymentDate :
    handlePaymentIntentSucceeded
        (handlePaymentIntentSucceeded dbReplay "pi_9" 1 1 none none) "pi_9" 1 2 none none
      ≠ handlePaymentIntentSucceeded dbReplay "pi_9" 1 1 none none ∧
    (paymentById (handlePaymentIntentSucceeded
        (handlePaymentIntentSucceeded dbReplay "pi_9" 1 1 none none) "pi_9" 1 2 none none) 3).map
      (fun p => p.paymentDate) = some (some 2) ∧
    (paymentById (handlePaymentIntentSucceeded dbReplay "pi_9" 1 1 none none) 3).map
      (fun p => p.paymentDate) = some (some 1) := by decide

/-- C2 amended: replaying the same succeeded event is idempotent only up
to the delivery timestamp: a replay carrying the same `new Date()` value
and metadata, with nothing interleaved, reproduces the state exactly (the
Payment stays `completed`, the order is set to `processing` again); a
replay at a later time rewrites `paymentDate` and re-forces the order to
`processing`. -/
theorem C2_replay_idempotent_same_timestamp (db : DB) (i : String) (m t : Nat)
    (c r : Option String) :
    handlePaymentIntentSucceeded (handlePaymentIntentSucceeded db i m t c r) i m t c r
      = handlePaymentIntentSucceeded db i m t c r := by
  cases h : db.payments.find? (fun p => p.transactionId == some i) with
  | none =>
    rw [handlePIS_of_no_match m t c r h]
    exact handlePIS_of_no_match m t c r h
  | some payment =>
    have hstep : handlePaymentIntentSucceeded db i m t c r =
        { db with
          payments := db.payments.map (fun p =>
            if p.id == payment.id then
              { p with status := .completed, paymentDate := some t,
                       cardLastFour := c, receiptUrl := r }
            else p),
          orders := db.orders.map (fun o =>
            if o.id == m then { o with status := .processing } else o) } := by
      unfold handlePaymentIntentSucceeded
      rw [h]
    rw [hstep]
    have hA : ((db.payments.map (fun p =>
        if p.id == payment.id then
          { p with status := .completed, paymentDate := some t,
                   cardLastFour := c, receiptUrl := r }
        else p)).find? (fun p => p.transactionId == some i))
        = some (if payment.id == payment.id then ({ payment with status := .completed, paymentDate := some t, cardLastFour := c, receiptUrl := r } : Payment) else payment) := by
      rw [find?_map_invar _ _
        (fun p => by by_cases hp : (p.id == payment.id) = true <;> simp [hp]) db.payments]
      rw [h, Option.map_some']
    unfold handlePaymentIntentSucceeded
    rw [hA]
    simp only [beq_self_eq_true, if_true]
    congr 1
    · rw [List.map_map]
      apply List.map_congr_left
      intro o _
      by_cases ho : o.id = m
      · simp [Function.comp_apply, ho]
      · simp [Function.comp_apply, ho]
    · rw [List.map_map]
      apply List.map_congr_left
      intro p _
      by_cases hp : p.id = payment.id
      · simp [Function.comp_apply, hp]
      · simp [Function.comp_apply, hp]

/-- A `completed` payment also passes the `pending`-or-`completed`
filter of the cash-on-delivery duplicate check. -/
theorem PayStatus.isActiveB_of_isCompletedB {s : PayStatus}
    (h : s.isCompletedB = true) : s.isActiveB = true := by
  cases s <;> simp_all [PayStatus.isCompletedB, PayStatus.isActiveB]

/-- The fields certified by a successful `findUserOrder` lookup. -/
theorem findUserOrder_spec {db : DB} {orderId userId : Nat} {o : Order}
    (ho : findUserOrder db orderId userId = some o) :
    o ∈ db.orders ∧ (o.id == orderId) = true ∧ (o.userId == userId) = true ∧
      o.status.isCancelledB = false := by
  have hm := List.mem_of_find?_eq_some ho
  have hp := List.find?_some ho
  simp only [Bool.and_eq_true, Bool.not_eq_true'] at hp
  exact ⟨hm, hp.1.1, hp.1.2, hp.2⟩

/-- C1 counterexample: a pending card intent, then a completed wallet
payment, then the gateway's succeeded event for the card intent leave
order 1 with TWO completed payments — webhook reconciliation never
checks for an existing completed payment, so the claimed invariant is
violated by this operation sequence. -/
theorem C1_two_completed_payments :
    createPaymentIntent dbPay 1 7 "pi_1" = .ok (dbPay1, 10) ∧
    createPayPalPayment dbPay1 1 7 "pp_1" 5 = .ok (dbPay2, 11) ∧
    completedPaymentCount
      (handlePaymentIntentSucceeded dbPay2 "pi_1" 1 6 none none) 1 = 2 := by decide

/-- C1 amended: the three *initiation* entry points do reject an order
that already has a completed payment (`DuplicateCompletedPayment` for the
card and wallet paths, `DuplicatePayment` for cash on delivery), but
neither webhook reconciliation nor the admin `updatePaymentStatus` checks
other payments of the order, so the number of completed payments per
order can exceed one. -/
theorem C1_initiation_rejects_completed {db : DB} {orderId userId : Nat}
    {o : Order} {q : Payment}
    (ho : findUserOrder db orderId userId = some o)
    (hq : db.payments.find? (fun p => p.orderId == orderId && p.status.isCompletedB)
      = some q)
    (intentId txn : String) (t : Nat) :
    createPaymentIntent db orderId userId intentId = .error .duplicateCompletedPayment ∧
    createPayPalPayment db orderId userId txn t = .error .duplicateCompletedPayment ∧
    createCashOnDelivery db orderId userId = .error .duplicatePayment := by
  refine ⟨?_, ?_, ?_⟩
  · unfold createPaymentIntent
    rw [ho]
    dsimp only
    rw [hq]
  · unfold createPayPalPayment
    rw [ho]
    dsimp only
    rw [hq]
  · unfold createCashOnDelivery
    rw [ho]
    dsimp only
    cases hact : db.payments.find? (fun p => p.orderId == orderId && p.status.isActiveB) with
    | none =>
      exfalso
      have hq1 := List.find?_some hq
      simp only [Bool.and_eq_true] at hq1
      have := List.find?_eq_none.mp hact q (List.mem_of_find?_eq_some hq)
      simp only [Bool.and_eq_true] at this
      exact this ⟨hq1.1, PayStatus.isActiveB_of_isCompletedB hq1.2⟩
    | some p2 => rfl

/-- C1 witness: on the state that already carries the completed wallet
payment, all three initiation paths reject. -/
theorem C1_initiation_rejects_witness :
    findUserOrder dbPay2 1 7 = some ({ order1 with status := .processing }) ∧
    dbPay2.payments.find? (fun p => p.orderId == 1 && p.status.isCompletedB)
      = some payPaypal1 ∧
    createPaymentIntent dbPay2 1 7 "pi_2" = .error .duplicateCompletedPayment ∧
    createPayPalPayment dbPay2 1 7 "pp_2" 9 = .error .duplicateCompletedPayment ∧
    createCashOnDelivery dbPay2 1 7 = .error .duplicatePayment := by
  have hmain := @C1_initiation_rejects_completed dbPay2 1 7
    ({ order1 with status := .processing }) payPaypal1 (by decide) (by decide) "pi_2" "pp_2" 9
  exact ⟨by decide, by decide, hmain.1, hmain.2.1, hmain.2.2⟩

/-- Explicit successor state of a successful `createCashOnDelivery`. -/
theorem cod_ok_state {db : DB} {orderId userId : Nat} {o : Order}
    (ho : findUserOrder db orderId userId = some o)
    (hnopay : db.payments.find? (fun p => p.orderId == orderId && p.status.isActiveB) = none) :
    createCashOnDelivery db orderId userId =
      .ok ({ db with
              payments := db.payments ++
                [{ id := db.nextId, orderId := orderId, userId := userId,
                   paymentMethod := .cash_on_delivery, amount := o.totalAmount,
                   transactionId := none, status := .pending, paymentDate := none,
                   cardLastFour := none, receiptUrl := none }],
              orders := db.orders.map (fun o2 =>
                if o2.id == orderId then { o2 with status := .processing } else o2),
              nextId := db.nextId + 1 }, db.nextId) := by
  unfold createCashOnDelivery
  rw [ho]
  dsimp only
  rw [hnopay]

/-- Explicit successor state of a successful `createPayPalPayment`. -/
theorem paypal_ok_state {db : DB} {orderId userId : Nat} {o : Order}
    (ho : findUserOrder db orderId userId = some o)
    (hnocomp : db.payments.find? (fun p => p.orderId == orderId && p.status.isCompletedB) = none)
    (txn : String) (t : Nat) :
    createPayPalPayment db orderId userId txn t =
      .ok ({ db with
              payments := db.payments ++
                [{ id := db.nextId, orderId := orderId, userId := userId,
                   paymentMethod := .paypal, amount := o.totalAmount,
                   transactionId := some txn, status := .completed,
                   paymentDate := some t, cardLastFour := none, receiptUrl := none }],
              orders := db.orders.map (fun o2 =>
                if o2.id == orderId then { o2 with status := .processing } else o2),
              nextId := db.nextId + 1 }, db.nextId) := by
  unfold createPayPalPayment
  rw [ho]
  dsimp only
  rw [hnocomp]

/-- With no `pending`/`completed` payment on the order there is in
particular no `completed` one. -/
theorem no_completed_of_no_active {db : DB} {orderId : Nat}
    (hnopay : db.payments.find? (fun p => p.orderId == orderId && p.status.isActiveB) = none) :
    db.payments.find? (fun p => p.orderId == orderId && p.status.isCompletedB) = none := by
  refine List.find?_eq_none.mpr fun p hp hcon => ?_
  have := List.find?_eq_none.mp hnopay p hp
  simp only [Bool.and_eq_true] at this hcon
  exact this ⟨hcon.1, PayStatus.isActiveB_of_isCompletedB hcon.2⟩

/-- Reading the targeted order's status on the successor state of a
payment that forces `processing`. -/
theorem statusRead_processing {db : DB} {orderId userId : Nat} {o : Order}
    (ho : findUserOrder db orderId userId = some o) :
    ((db.orders.map (fun o2 =>
        if o2.id == orderId then { o2 with status := OrderStatus.processing } else o2)).find?
          (fun o2 => o2.id == orderId)).map (fun o2 => o2.status)
      = some .processing := by
  obtain ⟨hm, hid, _, _⟩ := findUserOrder_spec ho
  exact statusRead_after_targeted_update db.orders orderId
    (fun o2 => { o2 with status := .processing }) .processing
    (fun x => rfl) (fun x => rfl) ⟨o, hm, hid⟩

/-- C8: on an order with no `pending` or `completed` payment,
`createCashOnDelivery` creates a `pending` Payment with no external
reference whose amount equals the order total, advances the order to
`processing`, and a second call on the resulting state is rejected with
`DuplicatePayment`. -/
theorem C8_cod_then_duplicate {db : DB} {orderId userId : Nat} {o : Order}
    (ho : findUserOrder db orderId userId = some o)
    (hnopay : db.payments.find? (fun p => p.orderId == orderId && p.status.isActiveB) = none)
    (hfresh : ∀ p ∈ db.payments, p.id ≠ db.nextId) :
    (createCashOnDelivery db orderId userId).map (fun r => paymentById r.1 r.2)
      = .ok (some { id := db.nextId, orderId := orderId, userId := userId,
                    paymentMethod := .cash_on_delivery, amount := o.totalAmount,
                    transactionId := none, status := .pending, paymentDate := none,
                    cardLastFour := none, receiptUrl := none }) ∧
    (createCashOnDelivery db orderId userId).map (fun r => orderStatusOf r.1 orderId)
      = .ok (some .processing) ∧
    (createCashOnDelivery db orderId userId).map
        (fun r => createCashOnDelivery r.1 orderId userId)
      = .ok (.error .duplicatePayment) := by
  rw [cod_ok_state ho hnopay]
  refine ⟨?_, ?_, ?_⟩
  · unfold paymentById
    dsimp only [Except.map]
    rw [find?_append_none _ (List.find?_eq_none.mpr fun p hp => by
      simpa using hfresh p hp)]
    rw [List.find?_cons_of_pos _ (by simp)]
  · dsimp only [Except.map]
    unfold orderStatusOf
    rw [statusRead_processing ho]
  · dsimp only [Except.map]
    unfold createCashOnDelivery
    have hx : ∃ y ∈ db.orders.map (fun o2 =>
        if o2.id == orderId then { o2 with status := OrderStatus.processing } else o2),
        (y.id == orderId && y.userId == userId && !y.status.isCancelledB) = true := by
      obtain ⟨hm, hid, huser, _⟩ := findUserOrder_spec ho
      refine ⟨(fun o2 => if o2.id == orderId then { o2 with status := OrderStatus.processing } else o2) o,
        List.mem_map_of_mem _ hm, ?_⟩
      simp [hid, huser, OrderStatus.isCancelledB]
    have hsome := List.find?_isSome.mpr hx
    obtain ⟨o2, ho2⟩ := Option.isSome_iff_exists.mp hsome
    unfold findUserOrder
    dsimp only
    rw [ho2]
    dsimp only
    rw [find?_append_none _ hnopay]
    rw [List.find?_cons_of_pos _ (by simp [PayStatus.isActiveB])]

/-- C8 witness: the pending order 1 of `dbPay` takes a cash-on-delivery
payment and then rejects a second one. -/
theorem C8_cod_then_duplicate_witness :
    findUserOrder dbPay 1 7 = some order1 ∧
    (createCashOnDelivery dbPay 1 7).map (fun r => paymentById r.1 r.2)
      = .ok (some { id := 10, orderId := 1, userId := 7,
                    paymentMethod := .cash_on_delivery, amount := 50,
                    transactionId := none, status := .pending, paymentDate := none,
                    cardLastFour := none, receiptUrl := none }) ∧
    (createCashOnDelivery dbPay 1 7).map (fun r => orderStatusOf r.1 1)
      = .ok (some .processing) ∧
    (createCashOnDelivery dbPay 1 7).map (fun r => createCashOnDelivery r.1 1 7)
      = .ok (.error .duplicatePayment) := by
  have hmain := @C8_cod_then_duplicate dbPay 1 7 order1 (by decide) (by decide)
    (by decide)
  exact ⟨by decide, hmain.1, hmain.2.1, hmain.2.2⟩

/-- C10: the only status precondition of `createCashOnDelivery` and
`createPayPalPayment` is that the order is not `cancelled`; whenever the
lookup succeeds — the order may be `shipped` or `delivered` — a
successful call sets the order's status (back) to `processing`. -/
theorem C10_payments_reset_status {db : DB} {orderId userId : Nat} {o : Order}
    (ho : findUserOrder db orderId userId = some o)
    (hnopay : db.payments.find? (fun p => p.orderId == orderId && p.status.isActiveB) = none)
    (txn : String) (t : Nat) :
    (createCashOnDelivery db orderId userId).map (fun r => orderStatusOf r.1 orderId)
      = .ok (some .processing) ∧
    (createPayPalPayment db orderId userId txn t).map (fun r => orderStatusOf r.1 orderId)
      = .ok (some .processing) := by
  constructor
  · rw [cod_ok_state ho hnopay]
    dsimp only [Except.map]
    unfold orderStatusOf
    rw [statusRead_processing ho]
  · rw [paypal_ok_state ho (no_completed_of_no_active hnopay) txn t]
    dsimp only [Except.map]
    unfold orderStatusOf
    rw [statusRead_processing ho]

/-- C10 witness: the *shipped* order 2 is moved back to `processing` by
either payment path. -/
theorem C10_payments_reset_status_witness :
    findUserOrder dbShip 2 7 = some orderShipped ∧
    orderShipped.status = .shipped ∧
    (createCashOnDelivery dbShip 2 7).map (fun r => orderStatusOf r.1 2)
      = .ok (some .processing) ∧
    (createPayPalPayment dbShip 2 7 "pp_9" 4).map (fun r => orderStatusOf r.1 2)
      = .ok (some .processing) := by
  have hmain := @C10_payments_reset_status dbShip 2 7 orderShipped
    (by decide) (by decide) "pp_9" 4
  exact ⟨by decide, by decide, hmain.1, hmain.2⟩

/-- C3: a successful `createOrder` freezes `totalAmount` as exactly the
sum over its order items of `unitPrice × quantity`, and later catalog
price updates touch neither the order row nor its items. -/
theorem C3_total_is_sum_and_frozen {db : DB} {u : Nat} {onum sa : String}
    {no : Option String} {db1 : DB} {oid : Nat}
    (hco : createOrder db u onum sa no = .ok (db1, oid))
    (horders : ∀ o ∈ db.orders, o.id ≠ db.nextId)
    (hitems : ∀ i ∈ db.orderItems, i.orderId ≠ db.nextId) :
    orderTotalOf db1 oid
      = some (((itemsOfOrder db1 oid).map (fun i => i.price * i.quantity)).sum) ∧
    ∀ bid np, (updateBookPrice db1 bid np).orders = db1.orders ∧
      (updateBookPrice db1 bid np).orderItems = db1.orderItems := by
  obtain ⟨hoid, T, ds, hpl, hords, hoi, hbooks, hpay, hcart, hnext⟩ := createOrder_inv hco
  subst hoid
  constructor
  · unfold orderTotalOf itemsOfOrder
    rw [hords, hoi]
    rw [find?_append_none _ (List.find?_eq_none.mpr fun o hoo => by
      simpa using horders o hoo)]
    rw [List.find?_cons_of_pos _ (by simp)]
    rw [Option.map_some']
    rw [List.filter_append]
    rw [List.filter_eq_nil_iff.mpr fun i hi => by simpa using hitems i hi]
    have h2 : (ds.map (fun d =>
        ({ orderId := db.nextId, bookId := d.bookId, quantity := d.quantity,
           price := d.price } : OrderItem))).filter (fun i => i.orderId == db.nextId)
        = ds.map (fun d =>
            ({ orderId := db.nextId, bookId := d.bookId, quantity := d.quantity,
               price := d.price } : OrderItem)) := by
      refine List.filter_eq_self.mpr fun i hi => ?_
      obtain ⟨d, hd, rfl⟩ := List.mem_map.mp hi
      simp
    rw [h2, List.nil_append, List.map_map]
    rw [priceLines_total db.books _ T ds hpl]
    rfl
  · intro bid np
    exact ⟨rfl, rfl⟩

/-- C3 witness: the specification's concrete cart (2 × A at 10, 1 × B at
25) yields total 45 = Σ price × quantity, and a later price change on A
leaves the order and its items untouched. -/
theorem C3_total_is_sum_witness :
    createOrder dbCart 7 "ORD-100" "addr" none = .ok (dbCartAfter, 100) ∧
    orderTotalOf dbCartAfter 100 = some 45 ∧
    (orderTotalOf dbCartAfter 100
      = some (((itemsOfOrder dbCartAfter 100).map (fun i => i.price * i.quantity)).sum) ∧
    ∀ bid np, (updateBookPrice dbCartAfter bid np).orders = dbCartAfter.orders ∧
      (updateBookPrice dbCartAfter bid np).orderItems = dbCartAfter.orderItems) := by
  refine ⟨by decide, by decide, ?_⟩
  exact @C3_total_is_sum_and_frozen dbCart 7 "ORD-100" "addr" none dbCartAfter 100
    (by decide) (by decide) (by decide)

/-- C4: when every cart line's book exists but some line asks for more
than the available stock, `createOrder` fails with `insufficientStock`
naming a failing line's book and its current stock; the failure is
raised by the validation loop before any write, so the returned error
carries no successor state and nothing is mutated. -/
theorem C4_insufficient_stock_aborts {db : DB} {u : Nat} (onum sa : String)
    (no : Option String)
    (hbooks : ∀ c ∈ db.cartItems.filter (fun c => c.userId == u),
      (db.books.find? (fun b => b.id == c.bookId)).isSome = true)
    (hfail : ∃ c ∈ db.cartItems.filter (fun c => c.userId == u), ∃ b,
      db.books.find? (fun b2 => b2.id == c.bookId) = some b ∧ b.stock < c.quantity) :
    ∃ c ∈ db.cartItems.filter (fun c => c.userId == u), ∃ b,
      db.books.find? (fun b2 => b2.id == c.bookId) = some b ∧ b.stock < c.quantity ∧
      createOrder db u onum sa no = .error (.insufficientStock b.title b.stock) := by
  obtain ⟨c0, hc0, b0, hfb0, hlt0, hpl⟩ :=
    priceLines_insufficient db.books _ hbooks hfail
  refine ⟨c0, hc0, b0, hfb0, hlt0, ?_⟩
  unfold createOrder
  dsimp only
  have hne : (db.cartItems.filter (fun c => c.userId == u)).isEmpty = false := by
    cases hcart : db.cartItems.filter (fun c => c.userId == u) with
    | nil => rw [hcart] at hc0; cases hc0
    | cons a l => rfl
  rw [hne]
  simp only [Bool.false_eq_true, if_false]
  rw [hpl]

/-- C4 witness: the scenario cart with item B out of stock fails with
`insufficientStock "B" 0` (and item A's line, checked first, causes no
partial effect — the error carries no successor state at all). -/
theorem C4_insufficient_stock_witness :
    createOrder dbCartB0 7 "ORD-100" "addr" none
      = .error (.insufficientStock "B" 0) ∧
    (∃ c ∈ dbCartB0.cartItems.filter (fun c => c.userId == 7), ∃ b,
      dbCartB0.books.find? (fun b2 => b2.id == c.bookId) = some b ∧
      b.stock < c.quantity ∧
      createOrder dbCartB0 7 "ORD-100" "addr" none
        = .error (.insufficientStock b.title b.stock)) := by
  refine ⟨by decide, ?_⟩
  exact @C4_insufficient_stock_aborts dbCartB0 7 "ORD-100" "addr" none
    (by decide)
    ⟨{ userId := 7, bookId := 2, quantity := 1 }, by decide,
      ⟨{ id := 2, title := "B", price := 25, stock := 0 }, by decide, by decide⟩⟩

/-- C5: after a successful `createOrder` each cart line's book stock has
dropped by exactly the ordered quantity, and a subsequent successful
`cancelOrder` on the new order restores every book's stock to its
pre-order value. -/
theorem C5_stock_roundtrip {db : DB} {u : Nat} {onum sa : String}
    {no : Option String} {db1 : DB} {oid : Nat} (t : Nat)
    (hco : createOrder db u onum sa no = .ok (db1, oid))
    (hnodup : ((db.cartItems.filter (fun c => c.userId == u)).map
      (fun c => c.bookId)).Nodup)
    (horders : ∀ o ∈ db.orders, o.id ≠ db.nextId)
    (hitems : ∀ i ∈ db.orderItems, i.orderId ≠ db.nextId) :
    (∀ c ∈ db.cartItems.filter (fun c => c.userId == u),
      stockOf db1.books c.bookId = stockOf db.books c.bookId - c.quantity) ∧
    (∀ x, (cancelOrder db1 oid u t).map (fun d2 => stockOf d2.books x)
      = some (stockOf db.books x)) := by
  obtain ⟨hoid, T, ds, hpl, hords, hoi, hbooks, hpay, hcart, hnext⟩ := createOrder_inv hco
  subst hoid
  have hndpairs : (((db.cartItems.filter (fun c => c.userId == u)).map
      (fun c => (c.bookId, c.quantity))).map (fun p => p.1)).Nodup := by
    rw [List.map_map]
    exact hnodup
  have hfold : db1.books =
      ((db.cartItems.filter (fun c => c.userId == u)).map
        (fun c => (c.bookId, c.quantity))).foldl
          (fun bs p => decStock bs p.1 p.2) db.books := by
    rw [hbooks]
    exact (List.foldl_map (fun c : CartItem => (c.bookId, c.quantity))
      (fun bs p => decStock bs p.1 p.2)
      (db.cartItems.filter (fun c => c.userId == u)) db.books).symm
  have hle : ∀ x, sumQty ((db.cartItems.filter (fun c => c.userId == u)).map
      (fun c => (c.bookId, c.quantity))) x ≤ stockOf db.books x := by
    intro x
    by_cases hmem : ∃ p ∈ (db.cartItems.filter (fun c => c.userId == u)).map
        (fun c => (c.bookId, c.quantity)), p.1 = x
    · obtain ⟨p, hp, hpx⟩ := hmem
      obtain ⟨c, hc, rfl⟩ := List.mem_map.mp hp
      subst hpx
      rw [sumQty_of_nodup hndpairs (List.mem_map_of_mem _ hc)]
      obtain ⟨b, hfb, hble⟩ := priceLines_stock_ok db.books _ T ds hpl c hc
      have hsb : stockOf db.books c.bookId = b.stock := by
        unfold stockOf
        rw [hfb]
        rfl
      rw [hsb]
      exact Nat.le_of_not_lt hble
    · have : ∀ p ∈ (db.cartItems.filter (fun c => c.userId == u)).map
          (fun c => (c.bookId, c.quantity)), p.1 ≠ x := by
        intro p hp hpx
        exact hmem ⟨p, hp, hpx⟩
      rw [sumQty_eq_zero this]
      exact Nat.zero_le _
  constructor
  · intro c hc
    rw [hfold, stockOf_foldDec,
      sumQty_of_nodup hndpairs (List.mem_map_of_mem _ hc)]
  · intro x
    have hfo : db1.orders.find? (fun o =>
        o.id == db.nextId && o.userId == u && o.status.isCancellableB)
        = some { id := db.nextId, userId := u, orderNumber := onum, totalAmount := T,
                 status := .pending, shippingAddress := sa, notes := no,
                 shippedAt := none, deliveredAt := none, cancelledAt := none } := by
      rw [hords]
      rw [find?_append_none _ (List.find?_eq_none.mpr fun o hoo => by
        simp only [Bool.and_eq_true, beq_iff_eq]
        rintro ⟨⟨h1, _⟩, _⟩
        exact horders o hoo h1)]
      exact List.find?_cons_of_pos _ (by simp [OrderStatus.isCancellableB])
    unfold cancelOrder
    rw [hfo]
    dsimp only
    rw [Option.map_some']
    refine congrArg some ?_
    have hfi : db1.orderItems.filter (fun i => i.orderId == db.nextId)
        = ds.map (fun d =>
            ({ orderId := db.nextId, bookId := d.bookId, quantity := d.quantity,
               price := d.price } : OrderItem)) := by
      rw [hoi, List.filter_append]
      rw [List.filter_eq_nil_iff.mpr fun i hi => by simpa using hitems i hi]
      rw [List.nil_append]
      refine List.filter_eq_self.mpr fun i hi => ?_
      obtain ⟨d, hd, rfl⟩ := List.mem_map.mp hi
      simp
    rw [hfi]
    have hstep : (ds.map (fun d =>
        ({ orderId := db.nextId, bookId := d.bookId, quantity := d.quantity,
           price := d.price } : OrderItem))).foldl
          (fun bs i => incStock bs i.bookId i.quantity) db1.books
        = ((ds.map (fun d =>
            ({ orderId := db.nextId, bookId := d.bookId, quantity := d.quantity,
               price := d.price } : OrderItem))).map
              (fun i => (i.bookId, i.quantity))).foldl
                (fun bs p => incStock bs p.1 p.2) db1.books :=
      (List.foldl_map (fun i : OrderItem => (i.bookId, i.quantity))
        (fun bs p => incStock bs p.1 p.2)
        (ds.map (fun d =>
          ({ orderId := db.nextId, bookId := d.bookId, quantity := d.quantity,
             price := d.price } : OrderItem))) db1.books).symm
    rw [hstep]
    have hpairs : (ds.map (fun d =>
        ({ orderId := db.nextId, bookId := d.bookId, quantity := d.quantity,
           price := d.price } : OrderItem))).map (fun i => (i.bookId, i.quantity))
        = (db.cartItems.filter (fun c => c.userId == u)).map
            (fun c => (c.bookId, c.quantity)) := by
      rw [List.map_map]
      exact priceLines_pairs db.books _ T ds hpl
    rw [hpairs, hfold]
    exact stockOf_roundtrip _ db.books x (hle x)

/-- C5 witness: on the scenario cart, stock drops to 3 and 0 after
`createOrder` and returns to 5 and 1 after `cancelOrder`. -/
theorem C5_stock_roundtrip_witness :
    createOrder dbCart 7 "ORD-100" "addr" none = .ok (dbCartAfter, 100) ∧
    ((∀ c ∈ dbCart.cartItems.filter (fun c => c.userId == 7),
      stockOf dbCartAfter.books c.bookId = stockOf dbCart.books c.bookId - c.quantity) ∧
    (∀ x, (cancelOrder dbCartAfter 100 7 9).map (fun d2 => stockOf d2.books x)
      = some (stockOf dbCart.books x))) ∧
    stockOf dbCartAfter.books 1 = 3 ∧ stockOf dbCartAfter.books 2 = 0 := by
  refine ⟨by decide, ?_, by decide, by decide⟩
  exact @C5_stock_roundtrip dbCart 7 "ORD-100" "addr" none dbCartAfter 100 9
    (by decide) (by decide) (by decide) (by decide)

end Readify
